import Mathlib

/-!
Verification of the intervention / blunder-detection subsystem of the
Checkmate Coach application.

The definitions below are a shallow embedding of the TypeScript sources:
  - frontend/src/lib/intervention.ts   (blunder policy, intervention record)
  - frontend/src/app/page.tsx          (orchestrator, clocks, handlers)
  - frontend/src/components/CoachModal.tsx (modal message)

JavaScript numbers are modelled as exact rationals, clock seconds as
integers, nullable fields as Option, and the event handlers and the
asynchronous fetch resolutions as pure state-transition functions on a
record mirroring the React component state of Home.
-/

namespace ChessCoach

/-- Side to move / player color, the TypeScript union type w | b. -/
inductive PlayerColor where
  | w
  | b
deriving DecidableEq, Repr

/-- Game mode union type from page.tsx. -/
inductive GameMode where
  | passAndPlay
  | coach
deriving DecidableEq, Repr

/-- intervention.ts: win-probability drop that triggers an intervention (10%). -/
def BLUNDER_THRESHOLD : ℚ := 1/10

/-- intervention.ts: calculateWinProbDrop.  winProb is always from the white
perspective; for white the drop is previous minus current, for black it is
current minus previous. -/
def calculateWinProbDrop (previousWinProb newWinProb : ℚ)
    (playerColor : PlayerColor) : ℚ :=
  match playerColor with
  | PlayerColor.w => previousWinProb - newWinProb
  | PlayerColor.b => newWinProb - previousWinProb

/-- intervention.ts: isBlunder.  The threshold argument defaults to
BLUNDER_THRESHOLD at every call site in the repository; here it is passed
explicitly. -/
def isBlunder (previousWinProb newWinProb : ℚ) (playerColor : PlayerColor)
    (threshold : ℚ) : Bool :=
  decide (calculateWinProbDrop previousWinProb newWinProb playerColor ≥ threshold)

/-- intervention.ts: getInterventionMessage.  Takes no argument and returns a
single fixed string. -/
def getInterventionMessage : String := "Hold on, that\x27s a mistake."

/-- CoachModal.tsx computes the drop from the intervention record but the
displayed headline is always getInterventionMessage, which ignores the drop. -/
def coachModalMessage (_drop : ℚ) : String := getInterventionMessage

/-! JavaScript numbers are IEEE-754 binary64 values; every finite double is
a rational, so double-precision computation is modelled exactly inside ℚ by
composing exact rational arithmetic with round-to-nearest-even at 53
significand bits.  This model is needed where rounding changes a verdict:
the literals 0.60 and 0.10 are not representable, and the program computes
0.60 - 0.50 as 7205759403792792/2^56, strictly below the double 0.10 =
7205759403792794/2^56. -/

/-- Round a rational to the nearest integer, ties to even. -/
def roundHalfEven (q : ℚ) : ℤ :=
  if q - ⌊q⌋ < 1/2 then ⌊q⌋
  else if 1/2 < q - ⌊q⌋ then ⌊q⌋ + 1
  else if ⌊q⌋ % 2 = 0 then ⌊q⌋ else ⌊q⌋ + 1

/-- Binary64 round-to-nearest-even for a positive rational in the normal
range: scale the binade of q onto the 53-bit significand and round. -/
def floatRoundPos (q : ℚ) : ℚ :=
  (roundHalfEven (q * 2 ^ (52 - Int.log 2 q)) : ℚ) * 2 ^ (Int.log 2 q - 52)

/-- Binary64 round-to-nearest-even on ℚ (normal range; the values arising
here are nowhere near subnormal or overflow territory). -/
def floatRound (q : ℚ) : ℚ :=
  if q = 0 then 0
  else if 0 < q then floatRoundPos q
  else -floatRoundPos (-q)

/-- The binary64 value denoted by a JS number literal such as 0.60. -/
def doubleLit (q : ℚ) : ℚ := floatRound q

/-- calculateWinProbDrop under the program's IEEE-754 binary64 semantics:
the JS subtraction returns the correctly rounded exact difference of its
(already representable) operands. -/
def calculateWinProbDropFp (previousWinProb newWinProb : ℚ)
    (playerColor : PlayerColor) : ℚ :=
  match playerColor with
  | PlayerColor.w => floatRound (previousWinProb - newWinProb)
  | PlayerColor.b => floatRound (newWinProb - previousWinProb)

/-- isBlunder under binary64 semantics: the comparison of two doubles is
exact, so only the computed drop carries rounding. -/
def isBlunderFp (previousWinProb newWinProb : ℚ) (playerColor : PlayerColor)
    (threshold : ℚ) : Bool :=
  decide
    (calculateWinProbDropFp previousWinProb newWinProb playerColor ≥ threshold)

/-- Structured content of a FEN string: board placement plus side to move,
castling rights, en-passant square and the two move counters.  This is the
opaque position snapshot (game.fen()) used for undo. -/
structure Fen where
  placement : String
  sideToMove : PlayerColor
  castling : String
  enPassant : String
  halfmoveClock : Nat
  fullmoveNumber : Nat
deriving DecidableEq, Repr

/-- chess-api.ts: AnalysisResult returned by fetchAnalysis. -/
structure AnalysisResult where
  bestMove : String
  fromSq : String
  toSq : String
  winProbability : ℚ
  moves : List (String × ℚ)
deriving DecidableEq, Repr

/-- A verbose chess.js move record, as read back by game.history. -/
structure MoveRecord where
  san : String
  fromSq : String
  toSq : String
deriving DecidableEq, Repr

/-- intervention.ts: InterventionState. -/
structure InterventionState where
  isActive : Bool
  fenBeforeMove : Option Fen
  userMove : Option String
  userMoveFrom : Option String
  userMoveTo : Option String
  previousWinProb : Option ℚ
  newWinProb : Option ℚ
  bestMove : Option String
  moveProbs : Option (List (String × ℚ))
deriving DecidableEq, Repr

/-- intervention.ts: createInitialInterventionState. -/
def createInitialInterventionState : InterventionState :=
  { isActive := false
    fenBeforeMove := none
    userMove := none
    userMoveFrom := none
    userMoveTo := none
    previousWinProb := none
    newWinProb := none
    bestMove := none
    moveProbs := none }

/-- The React state of the Home component in page.tsx that the intervention
subsystem reads and writes: the game position, the two clocks, the game
flags, mode and color, the cached evaluation, the intervention record, and
the pending blunder-check marker (refs preMoveEval / preMoveFen plus the
isBlunderCheckPending flag). -/
structure HomeState where
  game : Fen
  whiteTime : Int
  blackTime : Int
  gameStarted : Bool
  gameOver : Option String
  gameMode : GameMode
  playerColor : PlayerColor
  evaluation : Option AnalysisResult
  isEvalLoading : Bool
  intervention : InterventionState
  isBlunderCheckPending : Bool
  preMoveEval : Option ℚ
  preMoveFen : Option Fen
deriving DecidableEq, Repr

/-- The condition under which the timer useEffect in page.tsx does not install
the one-second interval, so no tick fires: the game has not started, a game
outcome is already recorded, the rules engine reports the position over, or an
intervention is active. -/
def timerPaused (posGameOver : Bool) (s : HomeState) : Prop :=
  s.gameStarted = false ∨ s.gameOver.isSome = true ∨ posGameOver = true ∨
    s.intervention.isActive = true

instance (posGameOver : Bool) (s : HomeState) :
    Decidable (timerPaused posGameOver s) := by
  unfold timerPaused; infer_instance

/-- One tick of the shared clock interval in page.tsx.  posGameOver is the
rules-engine verdict game.isGameOver() for the current position.  When the
interval is installed, the callback decrements the counter of the side to
move; a counter at or below one becomes zero and records the timeout outcome
for the opposing side. -/
def timerTick (posGameOver : Bool) (s : HomeState) : HomeState :=
  if timerPaused posGameOver s then s
  else if s.game.sideToMove = PlayerColor.w then
    if s.whiteTime ≤ 1 then
      { s with whiteTime := 0, gameOver := some "Black wins on time!" }
    else { s with whiteTime := s.whiteTime - 1 }
  else
    if s.blackTime ≤ 1 then
      { s with blackTime := 0, gameOver := some "White wins on time!" }
    else { s with blackTime := s.blackTime - 1 }

/-- One step of the accelerated think-time clock loop inside makeAiMove in
page.tsx: the AI side counter is decremented, flooring at zero with the
aiTimedOut flag set (first component: new counter, second: aiTimedOut). -/
def aiThinkTick (t : Int) : Int × Bool :=
  if t ≤ 1 then (0, true) else (t - 1, false)

/-- The timeout outcome makeAiMove records when the AI clock reaches zero. -/
def aiTimeoutMessage (aiColor : PlayerColor) : String :=
  (if aiColor = PlayerColor.w then "Black" else "White") ++ " wins on time!"

/-- Resolution of a successful post-move evaluation fetch (the fetchEval
useEffect in page.tsx).  cancelled1 is the cleanup flag of the effect as read
at the outer staleness check on arrival; cancelled2 is its value at the later
checks (after the inner best-move fetch and in the finally clause); mounted is
isMounted.current.  result is the fetched analysis, lastMove the last verbose
history entry, and preMoveAnalysis the outcome of the inner high-ELO fetch of
the pre-move position (none on failure or when no pre-move FEN is stored). -/
def fetchEvalResolve (cancelled1 cancelled2 mounted : Bool)
    (result : AnalysisResult) (lastMove : Option MoveRecord)
    (preMoveAnalysis : Option AnalysisResult) (s : HomeState) : HomeState :=
  if cancelled1 = false ∧ mounted = true then
    let isBlunderCheckFetch :=
      s.preMoveEval.isSome = true ∧ s.gameMode = GameMode.coach
    let s1 := if isBlunderCheckFetch then s else { s with evaluation := some result }
    match s.preMoveEval with
    | some previousWp =>
      if s.gameMode = GameMode.coach then
        let newWp := result.winProbability
        let s2 :=
          if isBlunder previousWp newWp s.playerColor BLUNDER_THRESHOLD then
            let best : Option String × Option (List (String × ℚ)) :=
              match s.preMoveFen, preMoveAnalysis with
              | some _, some a => (some a.bestMove, some a.moves)
              | _, _ => (none, none)
            if cancelled2 = false ∧ mounted = true then
              { s1 with intervention :=
                  { isActive := true
                    fenBeforeMove := s.preMoveFen
                    userMove := lastMove.map MoveRecord.san
                    userMoveFrom := lastMove.map MoveRecord.fromSq
                    userMoveTo := lastMove.map MoveRecord.toSq
                    previousWinProb := some previousWp
                    newWinProb := some newWp
                    bestMove := best.1
                    moveProbs := best.2 } }
            else s1
          else s1
        let s3 := { s2 with preMoveEval := none, preMoveFen := none }
        let s4 := if cancelled2 = false ∧ mounted = true then
            { s3 with isBlunderCheckPending := false } else s3
        if cancelled2 = false ∧ mounted = true then
          { s4 with isEvalLoading := false } else s4
      else
        if cancelled2 = false ∧ mounted = true then
          { s1 with isEvalLoading := false } else s1
    | none =>
        if cancelled2 = false ∧ mounted = true then
          { s1 with isEvalLoading := false } else s1
  else s

/-- Rejection path of the post-move evaluation fetch (catch plus finally in
the fetchEval useEffect): the pre-move refs are cleared unconditionally, and
the pending flag and loading flag are cleared when the fetch is neither
cancelled nor unmounted. -/
def fetchEvalReject (cancelled mounted : Bool) (s : HomeState) : HomeState :=
  let s1 := { s with preMoveEval := none, preMoveFen := none }
  let s2 := if cancelled = false ∧ mounted = true then
      { s1 with isBlunderCheckPending := false } else s1
  if cancelled = false ∧ mounted = true then
    { s2 with isEvalLoading := false } else s2

/-- handleRetry in page.tsx: restore the pre-move FEN held in the intervention
record (when present) and clear the intervention record and the pending
blunder-check marker. -/
def handleRetry (s : HomeState) : HomeState :=
  let s1 := match s.intervention.fenBeforeMove with
    | some fen => { s with game := fen }
    | none => s
  { s1 with intervention := createInitialInterventionState
            isBlunderCheckPending := false
            preMoveFen := none
            preMoveEval := none }

/-- handleExplain in page.tsx: dismiss the modal and let the game continue
with the move intact (LLM explanation deferred to a later phase). -/
def handleExplain (s : HomeState) : HomeState :=
  { s with intervention := createInitialInterventionState
           isBlunderCheckPending := false
           preMoveFen := none
           preMoveEval := none }

/-- handleContinue in page.tsx: the user accepts the move and continues. -/
def handleContinue (s : HomeState) : HomeState :=
  { s with intervention := createInitialInterventionState
           isBlunderCheckPending := false
           preMoveFen := none
           preMoveEval := none }

/-- The checkmate outcome recorded after a committed move in page.tsx. -/
def checkmateMessage (newGame : Fen) : String :=
  "Checkmate! " ++
    (if newGame.sideToMove = PlayerColor.w then "Black" else "White") ++ " wins!"

/-- The move-commit branch of handleSquareClick in page.tsx: runs when the
clicked square completes a legal move producing newGame.  Blocked while a
game outcome is recorded or an intervention is active.  In coach mode, on
the human turn and with a cached evaluation, it arms the blunder check by
storing the pre-move win probability and FEN and raising the pending flag;
then the new position is installed, the clock is started, and a checkmate or
draw verdict from the rules engine is recorded. -/
def handleSquareClickMove (s : HomeState) (newGame : Fen)
    (isCheckmate isDraw : Bool) : HomeState :=
  if s.gameOver.isSome = true then s
  else if s.intervention.isActive = true then s
  else
    let s1 :=
      match s.evaluation with
      | some ev =>
          if s.gameMode = GameMode.coach ∧ s.game.sideToMove = s.playerColor then
            { s with preMoveEval := some ev.winProbability
                     preMoveFen := some s.game
                     isBlunderCheckPending := true }
          else s
      | none => s
    let s2 := { s1 with game := newGame, gameStarted := true }
    if isCheckmate = true then { s2 with gameOver := some (checkmateMessage newGame) }
    else if isDraw = true then { s2 with gameOver := some "Draw!" }
    else s2

/-! Sample data used by the witnesses: positions and states drawn from the
scenario in the repository tests (1.e4 e5, then the blunder 2.h3). -/

/-- The initial chess position. -/
def startFen : Fen :=
  { placement := "rnbqkbnr/pppppppp/8/8/8/8/PPPPPPPP/RNBQKBNR"
    sideToMove := PlayerColor.w
    castling := "KQkq"
    enPassant := "-"
    halfmoveClock := 0
    fullmoveNumber := 1 }

/-- The position after 1.e4. -/
def fenAfterE4 : Fen :=
  { placement := "rnbqkbnr/pppppppp/8/8/4P3/8/PPPP1PPP/RNBQKBNR"
    sideToMove := PlayerColor.b
    castling := "KQkq"
    enPassant := "e3"
    halfmoveClock := 0
    fullmoveNumber := 1 }

/-- The position after 1.e4 e5, captured before the flagged move. -/
def fenAfterE4E5 : Fen :=
  { placement := "rnbqkbnr/pppp1ppp/8/4p3/4P3/8/PPPP1PPP/RNBQKBNR"
    sideToMove := PlayerColor.w
    castling := "KQkq"
    enPassant := "e6"
    halfmoveClock := 0
    fullmoveNumber := 2 }

/-- The position after the flagged move 2.h3. -/
def fenAfterH3 : Fen :=
  { placement := "rnbqkbnr/pppp1ppp/8/4p3/4P3/7P/PPPP1PP1/RNBQKBNR"
    sideToMove := PlayerColor.b
    castling := "KQkq"
    enPassant := "-"
    halfmoveClock := 0
    fullmoveNumber := 2 }

/-- A sample evaluation response. -/
def demoAnalysis : AnalysisResult :=
  { bestMove := "g1f3"
    fromSq := "g1"
    toSq := "f3"
    winProbability := 19/50
    moves := [("g1f3", 7/20), ("h2h3", 1/100)] }

/-- A sample state in the middle of a triggered intervention: white played
2.h3, the win probability dropped from 0.55 to 0.38, and the record is
populated. -/
def demoTriggered : HomeState :=
  { game := fenAfterH3
    whiteTime := 590
    blackTime := 595
    gameStarted := true
    gameOver := none
    gameMode := GameMode.coach
    playerColor := PlayerColor.w
    evaluation := some demoAnalysis
    isEvalLoading := false
    intervention :=
      { isActive := true
        fenBeforeMove := some fenAfterE4E5
        userMove := some "h3"
        userMoveFrom := some "h2"
        userMoveTo := some "h3"
        previousWinProb := some (11/20)
        newWinProb := some (19/50)
        bestMove := some "g1f3"
        moveProbs := some [("g1f3", 7/20)] }
    isBlunderCheckPending := false
    preMoveEval := none
    preMoveFen := none }

/-- A sample fresh coach-mode state with no cached evaluation. -/
def demoFresh : HomeState :=
  { game := startFen
    whiteTime := 600
    blackTime := 600
    gameStarted := false
    gameOver := none
    gameMode := GameMode.coach
    playerColor := PlayerColor.w
    evaluation := none
    isEvalLoading := true
    intervention := createInitialInterventionState
    isBlunderCheckPending := false
    preMoveEval := none
    preMoveFen := none }

/-- A sample live state with white on the clock at one second. -/
def demoRunning : HomeState :=
  { game := fenAfterE4E5
    whiteTime := 1
    blackTime := 300
    gameStarted := true
    gameOver := none
    gameMode := GameMode.coach
    playerColor := PlayerColor.w
    evaluation := none
    isEvalLoading := false
    intervention := createInitialInterventionState
    isBlunderCheckPending := false
    preMoveEval := none
    preMoveFen := none }

/-- C1: for all probabilities before and after in [0,1], calculateWinProbDrop
returns before minus after when the mover is white and after minus before
when the mover is black, and the result is positive exactly when the mover
position worsened (for white the white win probability went down; for black
it went up). -/
theorem calculateWinProbDrop_correct (before after : ℚ)
    (hb0 : 0 ≤ before) (hb1 : before ≤ 1) (ha0 : 0 ≤ after) (ha1 : after ≤ 1) :
    calculateWinProbDrop before after PlayerColor.w = before - after
    ∧ calculateWinProbDrop before after PlayerColor.b = after - before
    ∧ (0 < calculateWinProbDrop before after PlayerColor.w ↔ after < before)
    ∧ (0 < calculateWinProbDrop before after PlayerColor.b ↔ before < after) := by
  refine ⟨rfl, rfl, ?_, ?_⟩ <;> simp [calculateWinProbDrop, sub_pos]

/-- Witness for C1 at before = 3/5, after = 2/5. -/
theorem calculateWinProbDrop_correct_witness :
    calculateWinProbDrop (3/5) (2/5) PlayerColor.w = 3/5 - 2/5
    ∧ calculateWinProbDrop (3/5) (2/5) PlayerColor.b = 2/5 - 3/5
    ∧ (0 < calculateWinProbDrop (3/5) (2/5) PlayerColor.w ↔ (2/5 : ℚ) < 3/5)
    ∧ (0 < calculateWinProbDrop (3/5) (2/5) PlayerColor.b ↔ (3/5 : ℚ) < 2/5) :=
  calculateWinProbDrop_correct (3/5) (2/5) (by norm_num) (by norm_num)
    (by norm_num) (by norm_num)

/-- Helper: Int.log base 2 is pinned by the binade bounds. -/
theorem int_log2_eq {r : ℚ} {z : ℤ} (hr : 0 < r)
    (h1 : (2:ℚ) ^ z ≤ r) (h2 : r < (2:ℚ) ^ (z + 1)) : Int.log 2 r = z := by
  have ha := (Int.zpow_le_iff_le_log (b := 2) (by norm_num) hr).1 h1
  have hb := (Int.lt_zpow_iff_log_lt (b := 2) (by norm_num) hr).1 h2
  omega

/-- Helper: floatRound of a positive rational, with its binade exhibited. -/
theorem floatRound_eq_of (q : ℚ) (z : ℤ) (hq : 0 < q)
    (h1 : (2:ℚ) ^ z ≤ q) (h2 : q < (2:ℚ) ^ (z + 1)) :
    floatRound q = (roundHalfEven (q * 2 ^ (52 - z)) : ℚ) * 2 ^ (z - 52) := by
  unfold floatRound floatRoundPos
  rw [if_neg hq.ne', if_pos hq, int_log2_eq hq h1 h2]

/-- The double denoted by 0.60: 0.6 * 2^53 = 5404319552844595.2, rounding to
5404319552844595/2^53 (just below 3/5). -/
theorem doubleLit_sixTenths :
    doubleLit (6/10) = 5404319552844595/9007199254740992 := by
  rw [doubleLit, floatRound_eq_of _ (-1) (by norm_num) (by norm_num) (by norm_num)]
  norm_num [roundHalfEven]

/-- The double denoted by 0.50 is exactly one half. -/
theorem doubleLit_fiveTenths : doubleLit (5/10) = 1/2 := by
  rw [doubleLit, floatRound_eq_of _ (-1) (by norm_num) (by norm_num) (by norm_num)]
  norm_num [roundHalfEven]

/-- The double denoted by 0.10: 0.1 * 2^56 = 7205759403792793.6, rounding to
7205759403792794/2^56 (just above 1/10). -/
theorem doubleLit_oneTenth :
    doubleLit (1/10) = 7205759403792794/72057594037927936 := by
  rw [doubleLit, floatRound_eq_of _ (-4) (by norm_num) (by norm_num) (by norm_num)]
  norm_num [roundHalfEven]

/-- The double subtraction 0.60 - 0.50: the exact difference of the two
doubles is 900719925474099/2^53 = 7205759403792792/2^56, representable, so
no further rounding occurs. -/
theorem fpDrop_boundary :
    calculateWinProbDropFp (doubleLit (6/10)) (doubleLit (5/10)) PlayerColor.w
      = 7205759403792792/72057594037927936 := by
  have hstep : calculateWinProbDropFp (doubleLit (6/10)) (doubleLit (5/10))
      PlayerColor.w = floatRound (doubleLit (6/10) - doubleLit (5/10)) := rfl
  rw [hstep, doubleLit_sixTenths, doubleLit_fiveTenths,
    floatRound_eq_of _ (-4) (by norm_num) (by norm_num) (by norm_num)]
  norm_num [roundHalfEven]

/-- Helper: the boundary call returns false, since the computed drop
7205759403792792/2^56 is strictly below the double 0.10. -/
theorem fpBoundary_isBlunder_false :
    isBlunderFp (doubleLit (6/10)) (doubleLit (5/10)) PlayerColor.w
      (doubleLit (1/10)) = false := by
  unfold isBlunderFp
  apply decide_eq_false
  rw [fpDrop_boundary, doubleLit_oneTenth]
  norm_num

/-- C2 counterexample: under the program's IEEE-754 binary64 arithmetic the
boundary instance named by the claim is false — isBlunder(0.60, 0.50, w,
0.10) returns false, because the computed drop 0.60 - 0.50 =
7205759403792792/2^56 is strictly below the double 0.10 =
7205759403792794/2^56. -/
theorem isBlunder_boundary_counterexample :
    isBlunderFp (doubleLit (6/10)) (doubleLit (5/10)) PlayerColor.w
      (doubleLit (1/10)) = false
    ∧ calculateWinProbDropFp (doubleLit (6/10)) (doubleLit (5/10)) PlayerColor.w
        < doubleLit (1/10)
    ∧ calculateWinProbDropFp (doubleLit (6/10)) (doubleLit (5/10)) PlayerColor.w
        = 7205759403792792/72057594037927936
    ∧ doubleLit (1/10) = 7205759403792794/72057594037927936 := by
  refine ⟨fpBoundary_isBlunder_false, ?_, fpDrop_boundary, doubleLit_oneTenth⟩
  rw [fpDrop_boundary, doubleLit_oneTenth]
  norm_num

/-- C2 amended: isBlunder returns true exactly when the computed drop is at
least the threshold, the comparison itself being inclusive — both in the
exact-rational reading and under binary64 semantics on the computed doubles
— but at the instance isBlunder(0.60, 0.50, w, 0.10) the double-precision
drop 0.60 - 0.50 falls strictly below the double 0.10, so the call returns
false rather than true. -/
theorem isBlunder_correct_amended (before after threshold : ℚ)
    (pc : PlayerColor) :
    (isBlunder before after pc threshold = true ↔
      calculateWinProbDrop before after pc ≥ threshold)
    ∧ (isBlunderFp before after pc threshold = true ↔
      calculateWinProbDropFp before after pc ≥ threshold)
    ∧ isBlunderFp (doubleLit (6/10)) (doubleLit (5/10)) PlayerColor.w
        (doubleLit (1/10)) = false :=
  ⟨by simp [isBlunder], by simp [isBlunderFp], fpBoundary_isBlunder_false⟩

/-- C8 counterexample: the intervention message is not tiered by drop
magnitude — no choice of a most severe wording (for drops at least 0.20) and
a distinct mildest wording (for drops below 0.10) matches the code, because
the message at drop 1/4 and the message at drop 0 are the same string. -/
theorem coachModalMessage_not_tiered :
    ¬ ∃ severe moderate mild : String, severe ≠ mild ∧
      ∀ d : ℚ, coachModalMessage d =
        if (1/5 : ℚ) ≤ d then severe
        else if (1/10 : ℚ) ≤ d then moderate else mild := by
  rintro ⟨severe, moderate, mild, hne, h⟩
  have h1 := h (1/4)
  have h2 := h 0
  norm_num [coachModalMessage] at h1 h2
  exact hne (h1.symm.trans h2)

/-- C8 amended: the intervention message function takes no drop argument and
returns one fixed wording for every drop magnitude, as a pure constant. -/
theorem coachModalMessage_constant (d : ℚ) :
    coachModalMessage d = "Hold on, that\x27s a mistake."
    ∧ coachModalMessage d = getInterventionMessage :=
  ⟨rfl, rfl⟩

/-- C5: every resolution action on an active intervention — retry,
explain-dismiss or continue — leaves the intervention record in the
canonical inactive form: isActive is false and every other field is null. -/
theorem resolution_clears_record (s : HomeState)
    (hActive : s.intervention.isActive = true) :
    (handleRetry s).intervention = createInitialInterventionState
    ∧ (handleExplain s).intervention = createInitialInterventionState
    ∧ (handleContinue s).intervention = createInitialInterventionState
    ∧ createInitialInterventionState.isActive = false
    ∧ createInitialInterventionState.fenBeforeMove = none
    ∧ createInitialInterventionState.userMove = none
    ∧ createInitialInterventionState.userMoveFrom = none
    ∧ createInitialInterventionState.userMoveTo = none
    ∧ createInitialInterventionState.previousWinProb = none
    ∧ createInitialInterventionState.newWinProb = none
    ∧ createInitialInterventionState.bestMove = none
    ∧ createInitialInterventionState.moveProbs = none := by
  have hr : (handleRetry s).intervention = createInitialInterventionState := by
    unfold handleRetry
    cases s.intervention.fenBeforeMove <;> rfl
  exact ⟨hr, rfl, rfl, rfl, rfl, rfl, rfl, rfl, rfl, rfl, rfl, rfl⟩

/-- Witness for C5 on the sample triggered state. -/
theorem resolution_clears_record_witness :
    (handleRetry demoTriggered).intervention = createInitialInterventionState
    ∧ (handleExplain demoTriggered).intervention = createInitialInterventionState
    ∧ (handleContinue demoTriggered).intervention = createInitialInterventionState
    ∧ createInitialInterventionState.isActive = false
    ∧ createInitialInterventionState.fenBeforeMove = none
    ∧ createInitialInterventionState.userMove = none
    ∧ createInitialInterventionState.userMoveFrom = none
    ∧ createInitialInterventionState.userMoveTo = none
    ∧ createInitialInterventionState.previousWinProb = none
    ∧ createInitialInterventionState.newWinProb = none
    ∧ createInitialInterventionState.bestMove = none
    ∧ createInitialInterventionState.moveProbs = none :=
  resolution_clears_record demoTriggered rfl

/-- C6: when an active intervention carries the position snapshot captured
before the flagged move, retry restores the game to exactly that snapshot —
side to move and both move counters included — and clears the record to the
inactive form. -/
theorem handleRetry_restores (s : HomeState) (f : Fen)
    (hActive : s.intervention.isActive = true)
    (hFen : s.intervention.fenBeforeMove = some f) :
    (handleRetry s).game = f
    ∧ (handleRetry s).game.sideToMove = f.sideToMove
    ∧ (handleRetry s).game.halfmoveClock = f.halfmoveClock
    ∧ (handleRetry s).game.fullmoveNumber = f.fullmoveNumber
    ∧ (handleRetry s).intervention = createInitialInterventionState := by
  unfold handleRetry
  rw [hFen]
  exact ⟨rfl, rfl, rfl, rfl, rfl⟩

/-- Witness for C6: the sample triggered state round-trips to the position
captured after 1.e4 e5. -/
theorem handleRetry_restores_witness :
    (handleRetry demoTriggered).game = fenAfterE4E5
    ∧ (handleRetry demoTriggered).game.sideToMove = fenAfterE4E5.sideToMove
    ∧ (handleRetry demoTriggered).game.halfmoveClock = fenAfterE4E5.halfmoveClock
    ∧ (handleRetry demoTriggered).game.fullmoveNumber = fenAfterE4E5.fullmoveNumber
    ∧ (handleRetry demoTriggered).intervention = createInitialInterventionState :=
  handleRetry_restores demoTriggered fenAfterE4E5 rfl rfl

/-- C9 counterexample: on the sample triggered state, selecting explain does
not leave the intervention active in an Explaining state — handleExplain
deactivates the record. -/
theorem handleExplain_not_explaining :
    demoTriggered.intervention.isActive = true
    ∧ (handleExplain demoTriggered).intervention.isActive = false :=
  ⟨rfl, rfl⟩

/-- C9 amended: selecting explain on a triggered intervention dismisses the
modal: the record clears to the canonical inactive form instead of entering
an Explaining state (explanation streaming is not started in this phase),
while the board position is not altered and the flagged move remains
committed — the game field holding the post-move position is untouched. -/
theorem handleExplain_dismisses (s : HomeState)
    (hActive : s.intervention.isActive = true) :
    (handleExplain s).game = s.game
    ∧ (handleExplain s).intervention = createInitialInterventionState
    ∧ (handleExplain s).isBlunderCheckPending = false :=
  ⟨rfl, rfl, rfl⟩

/-- Witness for C9 amended on the sample triggered state. -/
theorem handleExplain_dismisses_witness :
    (handleExplain demoTriggered).game = demoTriggered.game
    ∧ (handleExplain demoTriggered).intervention = createInitialInterventionState
    ∧ (handleExplain demoTriggered).isBlunderCheckPending = false :=
  handleExplain_dismisses demoTriggered rfl

/-- C7: when the post-move evaluation fetch fails and the effect is neither
cancelled nor unmounted, the pending-evaluation marker is fully cleared —
both pre-move refs null and the pending flag false — no intervention is
triggered, the position is untouched, and the loading flag is released, so
play continues instead of freezing. -/
theorem fetchEvalReject_fails_open (s : HomeState) (c m : Bool)
    (hc : c = false) (hm : m = true) :
    (fetchEvalReject c m s).preMoveEval = none
    ∧ (fetchEvalReject c m s).preMoveFen = none
    ∧ (fetchEvalReject c m s).isBlunderCheckPending = false
    ∧ (fetchEvalReject c m s).intervention = s.intervention
    ∧ (fetchEvalReject c m s).isEvalLoading = false
    ∧ (fetchEvalReject c m s).game = s.game := by
  subst hc hm
  simp [fetchEvalReject]

/-- Witness for C7 on the sample fresh state. -/
theorem fetchEvalReject_fails_open_witness :
    (fetchEvalReject false true demoFresh).preMoveEval = none
    ∧ (fetchEvalReject false true demoFresh).preMoveFen = none
    ∧ (fetchEvalReject false true demoFresh).isBlunderCheckPending = false
    ∧ (fetchEvalReject false true demoFresh).intervention = demoFresh.intervention
    ∧ (fetchEvalReject false true demoFresh).isEvalLoading = false
    ∧ (fetchEvalReject false true demoFresh).game = demoFresh.game :=
  fetchEvalReject_fails_open demoFresh false true rfl rfl

/-- C4: a post-move evaluation fetch whose effect was cancelled because the
game position advanced again (for example by a retry) before it resolved is
discarded unconditionally on arrival: the resolution is a no-op, so the
visible evaluation is not updated and the intervention record keeps its
post-retry canonical inactive form. -/
theorem fetchEvalResolve_stale_discarded (c2 m : Bool)
    (result : AnalysisResult) (lastMove : Option MoveRecord)
    (preMoveAnalysis : Option AnalysisResult) (s : HomeState)
    (hCanon : s.intervention = createInitialInterventionState) :
    fetchEvalResolve true c2 m result lastMove preMoveAnalysis s = s
    ∧ (fetchEvalResolve true c2 m result lastMove preMoveAnalysis s).evaluation
        = s.evaluation
    ∧ (fetchEvalResolve true c2 m result lastMove preMoveAnalysis s).intervention
        = createInitialInterventionState := by
  have h : fetchEvalResolve true c2 m result lastMove preMoveAnalysis s = s := by
    unfold fetchEvalResolve
    rw [if_neg]
    rintro ⟨h1, -⟩
    exact Bool.true_eq_false_eq_False h1
  exact ⟨h, by rw [h], by rw [h, hCanon]⟩

/-- Witness for C4, scenario E: the fetch for the position after 2.h3
resolves after the user already retried; the post-retry state is unchanged. -/
theorem fetchEvalResolve_stale_discarded_witness :
    fetchEvalResolve true false true demoAnalysis none none
        (handleRetry demoTriggered) = handleRetry demoTriggered
    ∧ (fetchEvalResolve true false true demoAnalysis none none
        (handleRetry demoTriggered)).evaluation = (handleRetry demoTriggered).evaluation
    ∧ (fetchEvalResolve true false true demoAnalysis none none
        (handleRetry demoTriggered)).intervention = createInitialInterventionState :=
  fetchEvalResolve_stale_discarded false true demoAnalysis none none
    (handleRetry demoTriggered) rfl

/-- Helper: a state with a recorded game outcome is paused, so every further
tick is a no-op — a timeout freezes the clocks permanently. -/
theorem timerTick_frozen_after_gameOver (p : Bool) (t : HomeState)
    (h : t.gameOver.isSome = true) : timerTick p t = t := by
  have hp : timerPaused p t := Or.inr (Or.inl h)
  unfold timerTick
  rw [if_pos hp]

/-- C3: on each tick of the shared clock interval, at most one of the two
counters decrements and only the one of the side to move; a tick is a no-op
whenever the clock is paused (pre-game, outcome recorded, position over, or
intervention active); counters never go below zero; on a live tick a counter
at most one second from zero becomes exactly zero and the timeout outcome
for the opposing side is recorded, after which every further tick is a
no-op; the accelerated AI think-time loop likewise floors its counter at
zero, reporting its timeout flag at or below one second. -/
theorem clock_tick_invariants (posOver : Bool) (s : HomeState) :
    (timerPaused posOver s → timerTick posOver s = s)
    ∧ ((timerTick posOver s).whiteTime = s.whiteTime
        ∨ (timerTick posOver s).blackTime = s.blackTime)
    ∧ (s.game.sideToMove = PlayerColor.w →
        (timerTick posOver s).blackTime = s.blackTime)
    ∧ (s.game.sideToMove = PlayerColor.b →
        (timerTick posOver s).whiteTime = s.whiteTime)
    ∧ (0 ≤ s.whiteTime → 0 ≤ (timerTick posOver s).whiteTime)
    ∧ (0 ≤ s.blackTime → 0 ≤ (timerTick posOver s).blackTime)
    ∧ (¬ timerPaused posOver s → s.game.sideToMove = PlayerColor.w →
        s.whiteTime ≤ 1 →
        (timerTick posOver s).whiteTime = 0
        ∧ (timerTick posOver s).gameOver = some "Black wins on time!")
    ∧ (¬ timerPaused posOver s → s.game.sideToMove = PlayerColor.b →
        s.blackTime ≤ 1 →
        (timerTick posOver s).blackTime = 0
        ∧ (timerTick posOver s).gameOver = some "White wins on time!")
    ∧ (∀ p2 : Bool, (timerTick posOver s).gameOver.isSome = true →
        timerTick p2 (timerTick posOver s) = timerTick posOver s)
    ∧ (∀ t : Int, 0 ≤ t → 0 ≤ (aiThinkTick t).1)
    ∧ (∀ t : Int, t ≤ 1 → aiThinkTick t = (0, true)) := by
  refine ⟨?_, ?_, ?_, ?_, ?_, ?_, ?_, ?_, ?_, ?_, ?_⟩
  · intro hp; unfold timerTick; rw [if_pos hp]
  · unfold timerTick; split_ifs <;> simp
  · intro hside; unfold timerTick; split_ifs <;> simp_all
  · intro hside; unfold timerTick; split_ifs <;> simp_all
  · intro h0; unfold timerTick; split_ifs <;> simp_all <;> omega
  · intro h0; unfold timerTick; split_ifs <;> simp_all <;> omega
  · intro hp hside hw
    unfold timerTick
    rw [if_neg hp, if_pos hside, if_pos hw]
    exact ⟨rfl, rfl⟩
  · intro hp hside hb
    have hnw : ¬ s.game.sideToMove = PlayerColor.w := by
      rw [hside]; decide
    unfold timerTick
    rw [if_neg hp, if_neg hnw, if_pos hb]
    exact ⟨rfl, rfl⟩
  · intro p2 h
    exact timerTick_frozen_after_gameOver p2 (timerTick posOver s) h
  · intro t ht; unfold aiThinkTick; split_ifs <;> simp <;> omega
  · intro t ht; unfold aiThinkTick; rw [if_pos ht]

/-- Witness for C3: on the sample live state with one second left for white,
a live tick zeroes the white counter and records the timeout for black; with
the position reported over the tick is a no-op; the AI think loop at one
second floors to zero with the timeout flag. -/
theorem clock_tick_invariants_witness :
    (timerTick false demoRunning).whiteTime = 0
    ∧ (timerTick false demoRunning).gameOver = some "Black wins on time!"
    ∧ timerTick true demoRunning = demoRunning
    ∧ aiThinkTick 1 = (0, true) := by
  have hnp : ¬ timerPaused false demoRunning := by
    rintro (h | h | h | h) <;> exact Bool.noConfusion h
  have h7 := (clock_tick_invariants false demoRunning).2.2.2.2.2.2.1 hnp rfl
    (by norm_num [demoRunning])
  exact ⟨h7.1, h7.2,
    (clock_tick_invariants true demoRunning).1 (Or.inr (Or.inr (Or.inl rfl))),
    (clock_tick_invariants false demoRunning).2.2.2.2.2.2.2.2.2.2 1 (by norm_num)⟩

/-- Helper: a post-move evaluation resolution arriving with no stored
pre-move win probability never touches the intervention record. -/
theorem fetchEvalResolve_keeps_intervention_of_no_marker
    (c1 c2 m : Bool) (result : AnalysisResult) (lastMove : Option MoveRecord)
    (preMoveAnalysis : Option AnalysisResult) (t : HomeState)
    (h : t.preMoveEval = none) :
    (fetchEvalResolve c1 c2 m result lastMove preMoveAnalysis t).intervention
      = t.intervention := by
  unfold fetchEvalResolve
  rw [h]
  split_ifs <;> simp
  all_goals split_ifs <;> rfl

/-- C10: in coach mode, when no evaluation is cached at the moment the human
commits a move, the blunder check is not armed — no pre-move snapshot or win
probability is stored and the pending flag stays false — and the evaluation
fetch that follows the move can never activate an intervention. -/
theorem no_cached_eval_never_triggers (s : HomeState) (newGame : Fen)
    (cm dr : Bool)
    (hOver : s.gameOver = none)
    (hInt : s.intervention.isActive = false)
    (hMode : s.gameMode = GameMode.coach)
    (hTurn : s.game.sideToMove = s.playerColor)
    (hEval : s.evaluation = none)
    (hPre : s.preMoveEval = none)
    (hPend : s.isBlunderCheckPending = false) :
    (handleSquareClickMove s newGame cm dr).preMoveEval = none
    ∧ (handleSquareClickMove s newGame cm dr).preMoveFen = s.preMoveFen
    ∧ (handleSquareClickMove s newGame cm dr).isBlunderCheckPending = false
    ∧ ∀ (c1 c2 m : Bool) (result : AnalysisResult)
        (lastMove : Option MoveRecord) (pre : Option AnalysisResult),
        (fetchEvalResolve c1 c2 m result lastMove pre
          (handleSquareClickMove s newGame cm dr)).intervention
        = s.intervention := by
  have hs : (handleSquareClickMove s newGame cm dr).preMoveEval = s.preMoveEval
      ∧ (handleSquareClickMove s newGame cm dr).preMoveFen = s.preMoveFen
      ∧ (handleSquareClickMove s newGame cm dr).isBlunderCheckPending
          = s.isBlunderCheckPending
      ∧ (handleSquareClickMove s newGame cm dr).intervention = s.intervention := by
    unfold handleSquareClickMove
    simp only [hOver, hInt, hEval, Option.isSome_none]
    split_ifs <;> exact ⟨rfl, rfl, rfl, rfl⟩
  refine ⟨hs.1.trans hPre, hs.2.1, hs.2.2.1.trans hPend, ?_⟩
  intro c1 c2 m result lastMove pre
  rw [fetchEvalResolve_keeps_intervention_of_no_marker c1 c2 m result lastMove
    pre _ (hs.1.trans hPre), hs.2.2.2]

/-- Witness for C10: committing 1.e4 on the fresh coach-mode state with no
cached evaluation arms nothing, and the following fetch resolution leaves
the intervention record untouched. -/
theorem no_cached_eval_never_triggers_witness :
    (handleSquareClickMove demoFresh fenAfterE4 false false).preMoveEval = none
    ∧ (handleSquareClickMove demoFresh fenAfterE4 false false).preMoveFen
        = demoFresh.preMoveFen
    ∧ (handleSquareClickMove demoFresh fenAfterE4 false false).isBlunderCheckPending
        = false
    ∧ (fetchEvalResolve false false true demoAnalysis none none
        (handleSquareClickMove demoFresh fenAfterE4 false false)).intervention
        = demoFresh.intervention := by
  have h := no_cached_eval_never_triggers demoFresh fenAfterE4 false false
    rfl rfl rfl rfl rfl rfl rfl
  exact ⟨h.1, h.2.1, h.2.2.1, h.2.2.2 false false true demoAnalysis none none⟩

/-- Sanity check of the embedding along the positive path: when the blunder
check is armed (a pre-move win probability and FEN are stored, coach mode),
the fetch is live, and the classification flags a blunder, the resolution
activates and fully populates the intervention record and clears the
pending-evaluation marker. -/
theorem fetchEvalResolve_triggers (s : HomeState) (f : Fen)
    (result pre : AnalysisResult) (lastMv : MoveRecord) (wp : ℚ)
    (hPre : s.preMoveEval = some wp)
    (hMode : s.gameMode = GameMode.coach)
    (hFen : s.preMoveFen = some f)
    (hb : isBlunder wp result.winProbability s.playerColor BLUNDER_THRESHOLD
      = true) :
    (fetchEvalResolve false false true result (some lastMv) (some pre)
        s).intervention
      = { isActive := true
          fenBeforeMove := some f
          userMove := some lastMv.san
          userMoveFrom := some lastMv.fromSq
          userMoveTo := some lastMv.toSq
          previousWinProb := some wp
          newWinProb := some result.winProbability
          bestMove := some pre.bestMove
          moveProbs := some pre.moves }
    ∧ (fetchEvalResolve false false true result (some lastMv) (some pre)
        s).isBlunderCheckPending = false
    ∧ (fetchEvalResolve false false true result (some lastMv) (some pre)
        s).preMoveEval = none := by
  unfold fetchEvalResolve
  rw [hPre, hFen]
  simp [hMode, hb]

end ChessCoach
